import Mathlib

/-!
Verification of the Smart Citizen Kit data collector (`collector.py`).

The collector polls a JSON API, normalizes sensor readings
(`parse_sensors`), converts ISO-8601 timestamps to epoch nanoseconds
(`_iso_to_ns`), encodes readings as InfluxDB line-protocol points and
writes them (`write_to_influxdb`), all orchestrated by `poll_once` over
process-wide state, with exponential backoff in `run` (`_backoff_sleep`).

The embedding models Python JSON documents as the inductive `JVal`,
Python exceptions as the `PyErr` error type of `Except`, and the
InfluxDB client as an oracle `store : List Line → Bool` deciding whether
the single write call succeeds.  Machine floats appearing in the source
are handled as follows: sensor values become exact rationals (no claim
depends on float arithmetic on values), while the timestamp conversion
`int(dt.timestamp() * 1e9)` — whose IEEE-754 double rounding is
observable — is modelled exactly via `roundD53`, rounding an integer to
the nearest 53-bit-significand value as the hardware multiply does.
-/

/-- Python JSON-ish value, as produced by `resp.json()`.  Numbers are
modelled as exact rationals; objects as association lists in document
order (the `json` module collapses duplicate keys, so lists coming from
real payloads have distinct keys). -/
inductive JVal where
  | null
  | bool (b : Bool)
  | num (q : ℚ)
  | str (s : String)
  | arr (xs : List JVal)
  | obj (fields : List (String × JVal))

mutual

/-- Structural equality test on JSON values. -/
def JVal.beq : JVal → JVal → Bool
  | .null, .null => true
  | .bool a, .bool b => a == b
  | .num a, .num b => a == b
  | .str a, .str b => a == b
  | .arr as, .arr bs => JVal.beqList as bs
  | .obj as, .obj bs => JVal.beqFields as bs
  | _, _ => false

/-- Pointwise structural equality of JSON arrays. -/
def JVal.beqList : List JVal → List JVal → Bool
  | [], [] => true
  | a :: as, b :: bs => JVal.beq a b && JVal.beqList as bs
  | _, _ => false

/-- Pointwise structural equality of JSON object field lists. -/
def JVal.beqFields : List (String × JVal) → List (String × JVal) → Bool
  | [], [] => true
  | (k1, v1) :: as, (k2, v2) :: bs =>
    k1 == k2 && JVal.beq v1 v2 && JVal.beqFields as bs
  | _, _ => false

end

instance : BEq JVal := ⟨JVal.beq⟩

/-- Python exception classes that the modelled code can raise. -/
inductive PyErr where
  /-- `AttributeError`, e.g. calling `.get` / `.replace` on a non-dict /
  non-str. -/
  | attributeError
  /-- `TypeError`, e.g. iterating a non-iterable, unhashable dict key,
  `float(None)`. -/
  | typeError
  /-- `ValueError`, e.g. `float("n/a")` or an unparseable ISO string. -/
  | valueError
  /-- Any exception raised by the InfluxDB client's `write` call. -/
  | storeError
deriving DecidableEq

/-- Python truthiness of a JSON value (`bool(v)`). -/
def pyTruthy : JVal → Bool
  | .null => false
  | .bool b => b
  | .num q => q != 0
  | .str s => s != ""
  | .arr xs => !xs.isEmpty
  | .obj fs => !fs.isEmpty

/-- Python `==` on JSON values.  Scalars compare by value, with the
numeric-tower quirk `True == 1`, `False == 0`; containers compare
structurally (faithful for documents parsed from identical JSON text,
which is how the duplicate check ever sees equal containers). -/
def pyEq (a b : JVal) : Bool :=
  match a, b with
  | .num x, .bool y => x == (if y then (1 : ℚ) else 0)
  | .bool x, .num y => (if x then (1 : ℚ) else 0) == y
  | _, _ => a == b

/-- Python `d.get(key, default)`: returns the stored value (even if it
is `None`) when the key is present, the default otherwise; raises
`AttributeError` when the receiver is not a dict. -/
def pyGetD (x : JVal) (key : String) (dflt : JVal) : Except PyErr JVal :=
  match x with
  | .obj fs => .ok ((fs.lookup key).getD dflt)
  | _ => .error .attributeError

/-- Python iteration (`for s in x`): lists yield their elements, strings
their one-character substrings, dicts their keys; other values raise
`TypeError`. -/
def pyIter : JVal → Except PyErr (List JVal)
  | .arr xs => .ok xs
  | .str s => .ok (s.data.map fun c => .str (String.mk [c]))
  | .obj fs => .ok (fs.map fun kv => .str kv.1)
  | _ => .error .typeError

/-- Parse a decimal digit run to a natural number. -/
def digitsVal (cs : List Char) : ℕ :=
  cs.foldl (fun a c => a * 10 + (c.toNat - 48)) 0

/-- Model of Python `float(string)` for the common literal forms:
optional sign, integer part, optional fraction, optional exponent
(`inf` / `nan` / underscore separators / surrounding whitespace are
outside the model; no claim depends on them).  `none` means the string
does not parse and `float` raises `ValueError`. -/
def parseFloatQ (s : String) : Option ℚ :=
  let cs := s.data
  let (sgn, cs) :=
    match cs with
    | '-' :: rest => ((-1 : ℚ), rest)
    | '+' :: rest => ((1 : ℚ), rest)
    | _ => ((1 : ℚ), cs)
  let intDigits := cs.takeWhile Char.isDigit
  let cs := cs.dropWhile Char.isDigit
  let (fracDigits, cs) :=
    match cs with
    | '.' :: rest => (rest.takeWhile Char.isDigit, rest.dropWhile Char.isDigit)
    | _ => ([], cs)
  if intDigits.isEmpty && fracDigits.isEmpty then none
  else
    let mantissa : ℚ :=
      (digitsVal intDigits : ℚ) + (digitsVal fracDigits : ℚ) / (10 : ℚ) ^ fracDigits.length
    match cs with
    | [] => some (sgn * mantissa)
    | 'e' :: rest | 'E' :: rest =>
      let (esgn, rest) :=
        match rest with
        | '-' :: r => ((-1 : ℤ), r)
        | '+' :: r => ((1 : ℤ), r)
        | _ => ((1 : ℤ), rest)
      let eDigits := rest.takeWhile Char.isDigit
      let rest := rest.dropWhile Char.isDigit
      if eDigits.isEmpty || !rest.isEmpty then none
      else some (sgn * mantissa * (10 : ℚ) ^ (esgn * (digitsVal eDigits : ℤ)))
    | _ => none

/-- Model of Python `float(value)` on a JSON value. -/
def pyFloat : JVal → Except PyErr ℚ
  | .num q => .ok q
  | .bool b => .ok (if b then 1 else 0)
  | .str s =>
    match parseFloatQ s with
    | some q => .ok q
    | none => .error .valueError
  | .null => .error .typeError
  | .arr _ => .error .typeError
  | .obj _ => .error .typeError

/-- `config.SENSOR_NAME_MAP` from `config.py`: static allow-list mapping
sensor ids to stable names. -/
def SENSOR_NAME_MAP : List (ℤ × String) :=
  [ (55, "temperature"), (56, "humidity"), (53, "noise_dba"),
    (14, "light"), (58, "pressure"),
    (214, "uv_a"), (215, "uv_b"), (216, "uv_c"),
    (193, "pm_1"), (194, "pm_2_5"), (195, "pm_4"), (196, "pm_10"),
    (197, "pn_0_5"), (198, "pn_1"), (199, "pn_2_5"), (200, "pn_4"),
    (201, "pn_10"), (202, "typical_particle_size"),
    (10, "battery"), (220, "wifi_rssi"), (221, "sd_card_present") ]

/-- `config.SCK_DEVICE_ID` (development default; environment overrides
are not modelled — no claim depends on the device id's value). -/
def SCK_DEVICE_ID : String := "19396"

/-- Python `SENSOR_NAME_MAP.get(sid)` where `sid` is the JSON value read
from the payload: numbers (and bools, via the numeric tower) look up by
value, other hashable scalars miss, unhashable values raise
`TypeError`. -/
def sensorMapGet (sid : JVal) : Except PyErr (Option String) :=
  match sid with
  | .num q => .ok (if q.den = 1 then SENSOR_NAME_MAP.lookup q.num else none)
  | .bool b => .ok (SENSOR_NAME_MAP.lookup (if b then 1 else 0))
  | .str _ => .ok none
  | .null => .ok none
  | .arr _ => .error .typeError
  | .obj _ => .error .typeError

/-- A normalized reading: the dict appended by `parse_sensors`
(collector.py lines 128–135).  `sensor_id` keeps the raw JSON value of
the `id` field; `value` is the result of `float(value)`. -/
structure Reading where
  sensor_id : JVal
  sensor_name : String
  value : ℚ
  timestamp : JVal

/-- Tail of the loop body of `parse_sensors` after the timestamp has
been resolved (lines 125–135): skip on missing timestamp, else coerce
the value with `float` (which may raise) and emit the reading. -/
def finishEntry (sid : JVal) (sensor_name : String) (value : JVal)
    (timestamp_str : JVal) : Except PyErr (Option Reading) :=
  match timestamp_str with
  | .null => .ok none
  | ts =>
    match pyFloat value with
    | .error e => .error e
    | .ok v => .ok (some ⟨sid, sensor_name, v, ts⟩)

/-- One iteration of the `for s in sensors_raw` loop of `parse_sensors`
(lines 114–135).  `.ok none` means the entry was skipped, `.ok (some r)`
that it produced a reading, `.error` that the iteration raised. -/
def entryStep (data s : JVal) : Except PyErr (Option Reading) :=
  match pyGetD s "id" (.num (-1)) with
  | .error e => .error e
  | .ok sid =>
    match sensorMapGet sid with
    | .error e => .error e
    | .ok none => .ok none
    | .ok (some sensor_name) =>
      match pyGetD s "value" .null with
      | .error e => .error e
      | .ok .null => .ok none
      | .ok value =>
        match pyGetD s "last_reading_at" .null with
        | .error e => .error e
        | .ok tsS =>
          if pyTruthy tsS then finishEntry sid sensor_name value tsS
          else
            match pyGetD data "last_reading_at" .null with
            | .error e => .error e
            | .ok tsD => finishEntry sid sensor_name value tsD

/-- The `for` loop of `parse_sensors`, accumulating readings in input
order and propagating the first raised exception. -/
def parseLoop (data : JVal) : List JVal → Except PyErr (List Reading)
  | [] => .ok []
  | s :: rest =>
    match entryStep data s with
    | .error e => .error e
    | .ok none => parseLoop data rest
    | .ok (some r) =>
      match parseLoop data rest with
      | .error e => .error e
      | .ok rs => .ok (r :: rs)

/-- `data.get("data", {}).get("sensors", [])` followed by entering the
`for` loop (line 111): extracts the iterable of raw sensor entries. -/
def getSensorsRaw (data : JVal) : Except PyErr (List JVal) :=
  match pyGetD data "data" (.obj []) with
  | .error e => .error e
  | .ok inner =>
    match pyGetD inner "sensors" (.arr []) with
    | .error e => .error e
    | .ok sensorsJ => pyIter sensorsJ

/-- `parse_sensors` (collector.py lines 104–137). -/
def parse_sensors (data : JVal) : Except PyErr (List Reading) :=
  match getSensorsRaw data with
  | .error e => .error e
  | .ok ss => parseLoop data ss

/-! ### Timestamp conversion: `_iso_to_ns` (collector.py lines 140–143)

`_iso_to_ns` runs `datetime.fromisoformat(iso_str.replace("Z", "+00:00"))`
and returns `int(dt.timestamp() * 1_000_000_000)`.  Python strings are
modelled as `List Char`.  For an offset-aware whole-second datetime,
CPython's `timestamp()` returns the exact epoch-second count as a double
(it is an integer of magnitude below `2 ^ 53` for every year 1–9999, hence
exactly representable), the multiplication by the exactly-representable
double `1e9` rounds the integer product to the nearest 53-bit-significand
value (IEEE-754 round-to-nearest-even), and `int` truncates — a no-op on
the resulting integer.  `roundD53` reproduces that rounding exactly.
Naive (offset-free) timestamps are outside the model: their epoch value
depends on the process-local timezone. -/

/-- Floor base-2 logarithm via structural fuel recursion (so that the
kernel can evaluate it on large literals). -/
def log2f : ℕ → ℕ → ℕ
  | 0, _ => 0
  | fuel + 1, n => if n ≤ 1 then 0 else log2f fuel (n / 2) + 1

/-- Round an integer to the nearest IEEE-754 double (53-bit significand,
ties to even).  Faithful for all magnitudes below the double overflow
threshold, which is far beyond any epoch-nanosecond value. -/
def roundD53 (n : ℤ) : ℤ :=
  let s := n.natAbs
  if s < 2 ^ 53 then n
  else
    let e := log2f s s - 52
    let q := s / 2 ^ e
    let r := s % 2 ^ e
    let q' :=
      if r * 2 < 2 ^ e then q
      else if 2 ^ e < r * 2 then q + 1
      else if q % 2 = 0 then q else q + 1
    n.sign * (q' * 2 ^ e)

/-- `datetime._days_before_year(y)` (CPython `datetime.py`): days in the
proleptic Gregorian calendar before January 1 of `year`.  Integer `/` on
`ℤ` is floor division for the positive divisors used here, matching
Python `//`. -/
def _days_before_year (y : ℤ) : ℤ :=
  (y - 1) * 365 + (y - 1) / 4 - (y - 1) / 100 + (y - 1) / 400

/-- `datetime._is_leap(y)`. -/
def _is_leap (y : ℤ) : Bool :=
  y % 4 == 0 && (y % 100 != 0 || y % 400 == 0)

/-- `datetime._DAYS_BEFORE_MONTH` table. -/
def _DAYS_BEFORE_MONTH : List ℤ :=
  [0, 31, 59, 90, 120, 151, 181, 212, 243, 273, 304, 334]

/-- `datetime._days_before_month(y, m)` for `m ∈ 1..12`. -/
def _days_before_month (y m : ℤ) : ℤ :=
  _DAYS_BEFORE_MONTH.getD (m - 1).toNat 0 + (if 2 < m && _is_leap y then 1 else 0)

/-- `date.toordinal()` on a year-month-day triple. -/
def toordinal (y m d : ℤ) : ℤ :=
  _days_before_year y + _days_before_month y m + d

/-- The ordinal of the epoch date 1970-01-01. -/
def EPOCH_ORDINAL : ℤ := 719163

/-- An offset-aware whole-second datetime, as produced by
`datetime.fromisoformat` on the upstream API's timestamp format.
`offMinutes` is the UTC offset in minutes (from the `±HH:MM` suffix). -/
structure AwareDT where
  year : ℤ
  month : ℤ
  day : ℤ
  hour : ℤ
  minute : ℤ
  second : ℤ
  offMinutes : ℤ
deriving DecidableEq, Repr

/-- `dt.timestamp()` before float conversion: exact epoch seconds of an
aware datetime. -/
def epochSecs (t : AwareDT) : ℤ :=
  (toordinal t.year t.month t.day - EPOCH_ORDINAL) * 86400
    + t.hour * 3600 + t.minute * 60 + t.second - t.offMinutes * 60

/-- Python `s.replace("Z", "+00:00")` on the character list of `s`:
every occurrence of the one-character pattern is expanded. -/
def replaceZ (cs : List Char) : List Char :=
  cs.flatMap fun c => if c = 'Z' then ['+', '0', '0', ':', '0', '0'] else [c]

/-- Read exactly `k` decimal digits from the front of a character list. -/
def takeDigits : ℕ → List Char → Option (ℕ × List Char)
  | 0, cs => some (0, cs)
  | k + 1, c :: cs =>
    if c.isDigit then
      match takeDigits k cs with
      | some (v, rest) => some ((c.toNat - 48) * 10 ^ k + v, rest)
      | none => none
    else none
  | _ + 1, [] => none

/-- Expect a literal character at the front of a character list. -/
def expectChar (c : Char) : List Char → Option (List Char)
  | c' :: cs => if c' = c then some cs else none
  | [] => none

/-- Days in a month of a given year, for day-of-month validation. -/
def _days_in_month (y m : ℤ) : ℤ :=
  if m = 2 then (if _is_leap y then 29 else 28)
  else ([31, 28, 31, 30, 31, 30, 31, 31, 30, 31, 30, 31].getD (m - 1).toNat 0 : ℤ)

/-- Read two digits followed by a literal separator. -/
def num2 (sep : Char) (cs : List Char) : Option (ℕ × List Char) :=
  match takeDigits 2 cs with
  | none => none
  | some (v, rest) =>
    match expectChar sep rest with
    | none => none
    | some rest2 => some (v, rest2)

/-- Range validation performed by `datetime.fromisoformat` on the parsed
fields. -/
def validDT (y mo d h mi s oh om : ℕ) : Bool :=
  1 ≤ y && 1 ≤ mo && mo ≤ 12 && 1 ≤ d && (d : ℤ) ≤ _days_in_month (y : ℤ) (mo : ℤ)
    && h ≤ 23 && mi ≤ 59 && s ≤ 59 && oh ≤ 23 && om ≤ 59

/-- Assemble the aware datetime from parsed fields. -/
def mkDT (y mo d h mi s : ℕ) (sgn : ℤ) (oh om : ℕ) : AwareDT :=
  ⟨y, mo, d, h, mi, s, sgn * ((oh : ℤ) * 60 + om)⟩

/-- Parse the `HH:MM` tail of the UTC offset and finish validation. -/
def parseOffRest (y mo d h mi s : ℕ) (sgn : ℤ) (cs : List Char) : Option AwareDT :=
  match takeDigits 2 cs with
  | none => none
  | some (oh, cs1) =>
    match expectChar ':' cs1 with
    | none => none
    | some cs2 =>
      match takeDigits 2 cs2 with
      | none => none
      | some (om, cs3) =>
        if cs3.isEmpty && validDT y mo d h mi s oh om then
          some (mkDT y mo d h mi s sgn oh om)
        else none

/-- Model of `datetime.fromisoformat` for the offset-aware whole-second
format `YYYY-MM-DDTHH:MM:SS±HH:MM` the upstream emits (after the `Z`
replacement).  `none` means `ValueError`.  Format variants the real
parser also accepts (fractional seconds, other separators, naive
timestamps — the latter local-timezone-dependent) are outside the model;
no claim depends on which malformed or naive strings raise. -/
def fromisoformat (cs : List Char) : Option AwareDT :=
  match takeDigits 4 cs with
  | none => none
  | some (y, cs1) =>
    match expectChar '-' cs1 with
    | none => none
    | some cs2 =>
      match num2 '-' cs2 with
      | none => none
      | some (mo, cs3) =>
        match num2 'T' cs3 with
        | none => none
        | some (d, cs4) =>
          match num2 ':' cs4 with
          | none => none
          | some (h, cs5) =>
            match num2 ':' cs5 with
            | none => none
            | some (mi, cs6) =>
              match takeDigits 2 cs6 with
              | none => none
              | some (s, cs7) =>
                match cs7 with
                | '+' :: cs8 => parseOffRest y mo d h mi s 1 cs8
                | '-' :: cs8 => parseOffRest y mo d h mi s (-1) cs8
                | _ => none

/-- `_iso_to_ns` (collector.py lines 140–143) on the character list of
the input string: replace `Z`, parse, convert to epoch nanoseconds with
the double rounding of `timestamp() * 1e9` made explicit. -/
def _iso_to_ns (cs : List Char) : Except PyErr ℤ :=
  match fromisoformat (replaceZ cs) with
  | none => .error .valueError
  | some dt => .ok (roundD53 (epochSecs dt * 1000000000))

/-! ### Line-protocol encoding and store write: `write_to_influxdb`
(collector.py lines 146–175)

The InfluxDB client is an external collaborator, modelled as an oracle
`store : List Line → Bool` deciding whether its single `write` call
succeeds (`false` means the call raises).  A line is kept structured:
its measurement is the constant `"sck_sensors"`, and the textual
rendering of the float `value` (Python `repr`) is not modelled — no
claim depends on it.  The second component of the result records the
write calls issued to the store, in order. -/

/-- One line-protocol point
`sck_sensors,device_id=…,sensor_name=… value=… <ts_ns>`. -/
structure Line where
  measurement : String
  device_id : String
  sensor_name : String
  value : ℚ
  ts_ns : ℤ

/-- The body of the `for r in readings` loop (lines 161–168): convert
the reading's timestamp and build the line.  `_iso_to_ns` on a non-string
timestamp raises `AttributeError` (no `.replace` attribute). -/
def encodeLine (device_id : String) (r : Reading) : Except PyErr Line :=
  match r.timestamp with
  | .str s =>
    match _iso_to_ns s.data with
    | .error e => .error e
    | .ok ts => .ok ⟨"sck_sensors", device_id, r.sensor_name, r.value, ts⟩
  | _ => .error .attributeError

/-- The line-building loop: lines in reading order, first exception
propagates. -/
def encodeLines (device_id : String) : List Reading → Except PyErr (List Line)
  | [] => .ok []
  | r :: rest =>
    match encodeLine device_id r with
    | .error e => .error e
    | .ok line =>
      match encodeLines device_id rest with
      | .error e => .error e
      | .ok lines => .ok (line :: lines)

/-- `write_to_influxdb` (collector.py lines 146–175): empty input
returns 0 without touching the client; otherwise build all lines, issue
one `write` call with the joined record, and return the line count.
Result: (`len(lines)` or the raised exception, write calls issued). -/
def write_to_influxdb (store : List Line → Bool) (readings : List Reading)
    (device_id : String) : Except PyErr ℕ × List (List Line) :=
  if readings.isEmpty then (.ok 0, [])
  else
    match encodeLines device_id readings with
    | .error e => (.error e, [])
    | .ok lines =>
      if store lines then (.ok lines.length, [lines])
      else (.error .storeError, [lines])

/-! ### Poll cycle: `poll_once` (collector.py lines 181–210) -/

/-- The process-wide mutable state read and written by `poll_once`
(collector.py lines 46–48): `_last_poll_ts`, `_polls_total`,
`_last_reading_at`.  `_last_reading_at` holds the raw JSON value of the
document's top-level `last_reading_at` (initially `None`, i.e. null). -/
structure CState where
  last_poll_ts : Option String
  polls_total : ℕ
  last_reading_at : JVal

/-- The state at process start. -/
def initState : CState := ⟨none, 0, .null⟩

/-- How a non-raising poll cycle ended. -/
inductive PollResult where
  /-- Returned at line 193: duplicate timestamp skipped. -/
  | skippedDup
  /-- Returned at line 198: no valid sensor readings. -/
  | noReadings
  /-- Reached line 205: `n` points written, state updated. -/
  | written (n : ℕ)

/-- `poll_once` (collector.py lines 181–210) for one already-fetched
document `data`; `now` stands for `datetime.now(timezone.utc).isoformat()`.
Returns the state after the cycle, the outcome (or raised exception),
and the store write calls issued. -/
def poll_once (data : JVal) (now : String) (store : List Line → Bool)
    (st : CState) : CState × Except PyErr PollResult × List (List Line) :=
  match pyGetD data "last_reading_at" .null with
  | .error e => (st, .error e, [])
  | .ok device_reading_at =>
    if pyTruthy device_reading_at && pyEq device_reading_at st.last_reading_at then
      (st, .ok .skippedDup, [])
    else
      match parse_sensors data with
      | .error e => (st, .error e, [])
      | .ok readings =>
        if readings.isEmpty then (st, .ok .noReadings, [])
        else
          match write_to_influxdb store readings SCK_DEVICE_ID with
          | (.error e, calls) => (st, .error e, calls)
          | (.ok count, calls) =>
            (⟨some now, st.polls_total + 1, device_reading_at⟩,
             .ok (.written count), calls)

/-! ### Backoff and main loop: `_backoff_sleep`, `run`
(collector.py lines 213–272) -/

/-- `_backoff_sleep` (collector.py lines 213–215). -/
def _backoff_sleep (attempt : ℕ) : ℕ :=
  min (2 ^ attempt) 300

/-- How one iteration of `run`'s `while` loop ended, as seen by its
`try/except` (lines 246–269): `poll_once` returned, raised a
`requests.RequestException`, or raised anything else. -/
inductive CycleOutcome where
  | success
  | netError
  | otherError

/-- One iteration of the loop body of `run` acting on
`consecutive_errors`: returns the new counter and the backoff wait
scheduled by that iteration (`none` when the normal poll-interval wait
is used instead). -/
def runStep (consecutive_errors : ℕ) : CycleOutcome → ℕ × Option ℕ
  | .success => (0, none)
  | .netError => (consecutive_errors + 1, some (_backoff_sleep (consecutive_errors + 1)))
  | .otherError => (consecutive_errors + 1, some (_backoff_sleep (consecutive_errors + 1)))

/-- Fold `runStep` over a sequence of cycle outcomes, collecting the
scheduled backoff waits: the observable backoff behavior of `run`. -/
def runTrace (consecutive_errors : ℕ) : List CycleOutcome → ℕ × List (Option ℕ)
  | [] => (consecutive_errors, [])
  | o :: rest =>
    let step := runStep consecutive_errors o
    let tail := runTrace step.1 rest
    (tail.1, step.2 :: tail.2)

/-! ### Well-shaped payloads

Sufficient structural conditions under which `parse_sensors` provably
cannot raise: the looked-up path members, where present, have the
expected kinds, each entry's `id` is hashable, and each present `value`
is float-coercible.  (The spec's words for C8; compare with the actual
behavior of `parse_sensors` on arbitrary documents.) -/

/-- Can `float(v)` succeed or be skipped first (`None` is filtered
before the coercion)? -/
def floatable : JVal → Bool
  | .null => true
  | .num _ => true
  | .bool _ => true
  | .str s => (parseFloatQ s).isSome
  | .arr _ => false
  | .obj _ => false

/-- Is the value usable as a dict key (Python hashability)? -/
def hashable : JVal → Bool
  | .arr _ => false
  | .obj _ => false
  | _ => true

/-- A raw sensor entry that cannot make the loop body raise. -/
def wellShapedEntry (s : JVal) : Bool :=
  match s with
  | .obj fs =>
    hashable ((fs.lookup "id").getD (.num (-1)))
      && floatable ((fs.lookup "value").getD .null)
  | _ => false

/-- A payload on which `parse_sensors` cannot raise. -/
def wellShaped (data : JVal) : Bool :=
  match data with
  | .obj fs =>
    match (fs.lookup "data").getD (.obj []) with
    | .obj gs =>
      match (gs.lookup "sensors").getD (.arr []) with
      | .arr ss => ss.all wellShapedEntry
      | _ => false
    | _ => false
  | _ => false

/-! ### Concrete fixtures for witnesses and counterexamples -/

/-- A store oracle whose write call always succeeds. -/
def storeOK : List Line → Bool := fun _ => true

/-- A store oracle whose write call always raises. -/
def storeFail : List Line → Bool := fun _ => false

/-- A raw temperature-sensor entry with its own timestamp. -/
def sensor55 : JVal :=
  .obj [("id", .num 55), ("value", .num 21.4),
        ("last_reading_at", .str "2026-02-04T17:00:47Z")]

/-- A payload with a normal top-level timestamp and one mapped sensor. -/
def payA : JVal :=
  .obj [("last_reading_at", .str "2026-02-04T17:00:47Z"),
        ("data", .obj [("sensors", .arr [sensor55])])]

/-- A payload with no top-level `last_reading_at` at all, but a sensor
carrying its own timestamp. -/
def payB : JVal :=
  .obj [("data", .obj [("sensors", .arr
    [.obj [("id", .num 56), ("value", .num 70.44),
           ("last_reading_at", .str "2026-02-04T18:00:47Z")]])])]

/-- A payload whose top-level `last_reading_at` is the empty string:
non-null, but falsy in Python. -/
def payE : JVal :=
  .obj [("last_reading_at", .str ""),
        ("data", .obj [("sensors", .arr [sensor55])])]

/-- A humidity entry whose value parses. -/
def sensor56 : JVal :=
  .obj [("id", .num 56), ("value", .num 70.44),
        ("last_reading_at", .str "2026-02-04T17:00:47Z")]

/-- A catalog-listed entry whose present value does not parse as a
float. -/
def sensorBad : JVal :=
  .obj [("id", .num 55), ("value", .str "n/a"),
        ("last_reading_at", .str "2026-02-04T17:00:47Z")]

/-- Payload holding the non-numeric-value entry followed by a perfectly
good entry. -/
def payBad : JVal :=
  .obj [("last_reading_at", .str "2026-02-04T17:00:47Z"),
        ("data", .obj [("sensors", .arr [sensorBad, sensor56])])]

/-- The same payload with the offending entry removed. -/
def payBadRemoved : JVal :=
  .obj [("last_reading_at", .str "2026-02-04T17:00:47Z"),
        ("data", .obj [("sensors", .arr [sensor56])])]

/-- A payload whose `"data"` member is a number: `data.get("data", {})`
returns `5` and the chained `.get` raises `AttributeError`. -/
def payMalformed : JVal := .obj [("data", .num 5)]

/-- State after one successful cycle over `payA`. -/
def st1 : CState := (poll_once payA "n1" storeOK initState).1

/-- State after one successful cycle over `payE` (stores the empty
string as the last seen device timestamp). -/
def stE : CState := (poll_once payE "n1" storeOK initState).1

/-- The normalized reading produced from `sensor55`. -/
def r55 : Reading := ⟨.num 55, "temperature", 21.4, .str "2026-02-04T17:00:47Z"⟩

/-- The normalized reading produced from `sensor56`. -/
def r56 : Reading := ⟨.num 56, "humidity", 70.44, .str "2026-02-04T17:00:47Z"⟩

/-- The parsed datetime of `9999-01-01T00:00:01+00:00`. -/
def dt9 : AwareDT := ⟨9999, 1, 1, 0, 0, 1, 0⟩

/-! ## Helper lemmas -/

mutual

theorem JVal.beq_refl : ∀ v : JVal, JVal.beq v v = true
  | .null => rfl
  | .bool b => by simp [JVal.beq]
  | .num q => by simp [JVal.beq]
  | .str s => by simp [JVal.beq]
  | .arr xs => by simp [JVal.beq]; exact JVal.beqList_refl xs
  | .obj fs => by simp [JVal.beq]; exact JVal.beqFields_refl fs

theorem JVal.beqList_refl : ∀ xs : List JVal, JVal.beqList xs xs = true
  | [] => rfl
  | x :: xs => by
    simp [JVal.beqList]
    exact ⟨JVal.beq_refl x, JVal.beqList_refl xs⟩

theorem JVal.beqFields_refl : ∀ fs : List (String × JVal), JVal.beqFields fs fs = true
  | [] => rfl
  | (k, v) :: fs => by
    simp [JVal.beqFields]
    exact ⟨JVal.beq_refl v, JVal.beqFields_refl fs⟩

end

/-- Python `==` is reflexive on JSON values. -/
theorem pyEq_refl (v : JVal) : pyEq v v = true := by
  cases v <;> simp [pyEq, BEq.beq] <;> exact JVal.beq_refl _

/-- A truthy value is not null. -/
theorem pyTruthy_ne_null {v : JVal} (h : pyTruthy v = true) : v ≠ JVal.null := by
  intro hv; subst hv; simp [pyTruthy] at h

/-! ## Claim C2 — backoff function -/

/-- Claim C2: the backoff wait satisfies `wait(n) = min(2^n, 300)`
seconds for every `n` in 1..10, is non-decreasing in `n`, and never
exceeds 300. -/
theorem claim_C2 :
    (∀ n : ℕ, 1 ≤ n → n ≤ 10 → _backoff_sleep n = min (2 ^ n) 300)
      ∧ (∀ m n : ℕ, m ≤ n → _backoff_sleep m ≤ _backoff_sleep n)
      ∧ (∀ n : ℕ, _backoff_sleep n ≤ 300) := by
  refine ⟨fun n _ _ => rfl, fun m n h => ?_, fun n => min_le_right _ _⟩
  exact min_le_min (Nat.pow_le_pow_right (by norm_num) h) le_rfl

/-- Witness for C2 at concrete inputs. -/
theorem claim_C2_witness :
    _backoff_sleep 3 = min (2 ^ 3) 300
      ∧ _backoff_sleep 2 ≤ _backoff_sleep 9
      ∧ _backoff_sleep 12 ≤ 300 :=
  ⟨claim_C2.1 3 (by decide) (by decide), claim_C2.2.1 2 9 (by decide),
    claim_C2.2.2 12⟩

/-! ## Claim C7 — empty batch -/

/-- Claim C7: for the empty list of readings the encoder/writer returns
count 0 and the store client is never invoked. -/
theorem claim_C7 (store : List Line → Bool) (device_id : String) :
    write_to_influxdb store [] device_id = (.ok 0, []) := rfl

/-! ## Claim C9 — failure counter and backoff path -/

/-- Claim C9: `consecutive_errors` is reset to 0 by every successful
cycle and incremented by exactly 1 on every failed cycle; both failure
classes follow the identical backoff path; three consecutive failures
produce waits 2s, 4s, 8s with the counter ending at 3, and a subsequent
success resets it to 0. -/
theorem claim_C9 :
    (∀ n : ℕ, runStep n .success = (0, none))
      ∧ (∀ n : ℕ, runStep n .netError = (n + 1, some (_backoff_sleep (n + 1))))
      ∧ (∀ n : ℕ, runStep n .netError = runStep n .otherError)
      ∧ runTrace 0 [.netError, .netError, .netError] = (3, [some 2, some 4, some 8])
      ∧ (runTrace 0 [.netError, .netError, .netError, .success]).1 = 0 :=
  ⟨fun _ => rfl, fun _ => rfl, fun _ => rfl, rfl, rfl⟩

/-! ## Claim C10 — failed cycle leaves state unchanged -/

/-- Claim C10: a poll cycle is atomic with respect to its observable
state on write failure: if any exception is raised during the cycle —
in particular the store write raising, reported as `.storeError` — then
`last_seen_device_timestamp`, `last_poll_time` and `poll_count` are all
unchanged, so the next cycle's duplicate check and the health snapshot
behave as if the failed cycle never ran. -/
theorem claim_C10 (data : JVal) (now : String) (store : List Line → Bool)
    (st : CState) (e : PyErr)
    (h : (poll_once data now store st).2.1 = .error e) :
    (poll_once data now store st).1 = st := by
  unfold poll_once at h ⊢
  cases hg : pyGetD data "last_reading_at" JVal.null with
  | error e2 => simp only [hg]
  | ok dv =>
    simp only [hg] at h ⊢
    by_cases ht : (pyTruthy dv && pyEq dv st.last_reading_at) = true
    · rw [if_pos ht] at h; exact absurd h (by simp)
    · rw [if_neg ht] at h ⊢
      cases hp : parse_sensors data with
      | error e2 => simp only [hp]
      | ok rs =>
        simp only [hp] at h ⊢
        by_cases he : rs.isEmpty = true
        · rw [if_pos he] at h; exact absurd h (by simp)
        · rw [if_neg he] at h ⊢
          cases hw : write_to_influxdb store rs SCK_DEVICE_ID with
          | mk res calls =>
            cases res with
            | error e2 => simp only [hw]
            | ok n => rw [hw] at h; simp at h

/-- Witness for C10: a concrete cycle whose store write fails. -/
theorem claim_C10_witness :
    (poll_once payA "n1" storeFail initState).2.1 = .error .storeError
      ∧ (poll_once payA "n1" storeFail initState).1 = initState :=
  ⟨rfl, claim_C10 payA "n1" storeFail initState .storeError rfl⟩

/-- The duplicate branch of `poll_once` (lines 189–193): a truthy
document timestamp equal (Python `==`) to the stored one short-circuits
the cycle. -/
theorem poll_once_skip (data : JVal) (now : String) (store : List Line → Bool)
    (st : CState) (dv : JVal)
    (hg : pyGetD data "last_reading_at" .null = .ok dv)
    (ht : pyTruthy dv = true) (he : pyEq dv st.last_reading_at = true) :
    poll_once data now store st = (st, .ok .skippedDup, []) := by
  unfold poll_once
  rw [hg]
  simp [ht, he]

/-- Case analysis on a completed `poll_once`: either the state is
untouched and nothing was written, or the cycle wrote and the new state
is exactly (`now`, incremented counter, the document's top-level
timestamp). -/
theorem poll_once_cases (data : JVal) (now : String) (store : List Line → Bool)
    (st st2 : CState) (res : Except PyErr PollResult) (calls : List (List Line))
    (h : poll_once data now store st = (st2, res, calls)) :
    (st2 = st ∧ ∀ n : ℕ, res ≠ .ok (.written n))
      ∨ (∃ dv n, res = .ok (.written n)
          ∧ pyGetD data "last_reading_at" .null = .ok dv
          ∧ st2 = ⟨some now, st.polls_total + 1, dv⟩) := by
  unfold poll_once at h
  cases hg : pyGetD data "last_reading_at" JVal.null with
  | error e2 =>
    simp only [hg] at h
    cases h
    exact .inl ⟨rfl, by simp⟩
  | ok dv =>
    simp only [hg] at h
    by_cases ht : (pyTruthy dv && pyEq dv st.last_reading_at) = true
    · rw [if_pos ht] at h
      cases h
      exact .inl ⟨rfl, by simp⟩
    · rw [if_neg ht] at h
      cases hp : parse_sensors data with
      | error e2 =>
        simp only [hp] at h
        cases h
        exact .inl ⟨rfl, by simp⟩
      | ok rs =>
        simp only [hp] at h
        by_cases he : rs.isEmpty = true
        · rw [if_pos he] at h
          cases h
          exact .inl ⟨rfl, by simp⟩
        · rw [if_neg he] at h
          cases hw : write_to_influxdb store rs SCK_DEVICE_ID with
          | mk wres wcalls =>
            cases wres with
            | error e2 =>
              simp only [hw] at h
              cases h
              exact .inl ⟨rfl, by simp⟩
            | ok n =>
              simp only [hw] at h
              cases h
              exact .inr ⟨dv, n, rfl, rfl, rfl⟩

/-! ## Claim C1 — duplicate suppression

As stated, C1 fails on the code: the duplicate check is
`if device_reading_at and device_reading_at == _last_reading_at`, so a
**non-null but falsy** timestamp (the empty string) never triggers the
skip even when it equals the stored value, and two consecutive cycles
over that unchanged timestamp write twice.  The invariant holds once
"non-null" is strengthened to "truthy". -/

/-- Counterexample to C1 as stated: over `payE` the top-level timestamp
is the empty string — non-null and equal to the stored
`last_seen_device_timestamp` — yet the second cycle issues a store write
and increments `poll_count` instead of skipping. -/
theorem claim_C1_counterexample :
    pyGetD payE "last_reading_at" .null = .ok (.str "")
      ∧ JVal.str "" ≠ JVal.null
      ∧ stE.last_reading_at = .str ""
      ∧ ((poll_once payE "n2" storeOK stE).2.2).length = 1
      ∧ (poll_once payE "n2" storeOK stE).1.polls_total = 2 :=
  ⟨rfl, fun h => JVal.noConfusion h, rfl, rfl, rfl⟩

/-- Claim C1 amended: for any device document whose top-level reading
timestamp is *truthy* (non-null and non-empty/non-zero) and Python-equal
to the stored `last_seen_device_timestamp`, a poll cycle performs no
normalize, no encode and no store write and leaves the state unchanged;
consequently, after a written cycle whose (truthy) timestamp was stored,
a second cycle over the same document skips with no write and no state
change — writes happen exactly once. -/
theorem claim_C1_amended :
    (∀ (data : JVal) (now : String) (store : List Line → Bool) (st : CState)
        (dv : JVal),
      pyGetD data "last_reading_at" .null = .ok dv →
      pyTruthy dv = true →
      pyEq dv st.last_reading_at = true →
      poll_once data now store st = (st, .ok .skippedDup, []))
    ∧ (∀ (data : JVal) (now now2 : String) (store store2 : List Line → Bool)
          (st st2 : CState) (n : ℕ) (calls : List (List Line)),
        poll_once data now store st = (st2, .ok (.written n), calls) →
        pyTruthy st2.last_reading_at = true →
        poll_once data now2 store2 st2 = (st2, .ok .skippedDup, [])) := by
  constructor
  · exact fun data now store st dv hg ht he => poll_once_skip data now store st dv hg ht he
  · intro data now now2 store store2 st st2 n calls h htr
    rcases poll_once_cases data now store st st2 (.ok (.written n)) calls h with
      ⟨_, hne⟩ | ⟨dv, n2, _, hg, hst⟩
    · exact absurd rfl (hne n)
    · have hlast : st2.last_reading_at = dv := by rw [hst]
      refine poll_once_skip data now2 store2 st2 dv hg ?_ ?_
      · rw [hlast] at htr; exact htr
      · rw [hlast]; exact pyEq_refl dv

/-- Witness for C1 amended: over `payA` the first cycle writes and the
second skips with untouched state; directly skipping on a matching
truthy stored timestamp also verified. -/
theorem claim_C1_witness :
    poll_once payA "n2" storeOK st1 = (st1, .ok .skippedDup, [])
      ∧ poll_once payA "n3" storeOK st1 = (st1, .ok .skippedDup, []) :=
  ⟨claim_C1_amended.1 payA "n2" storeOK st1 (.str "2026-02-04T17:00:47Z") rfl rfl rfl,
    claim_C1_amended.2 payA "n1" "n3" storeOK storeOK initState st1 1
      ((poll_once payA "n1" storeOK initState).2.2) rfl rfl⟩

/-! ## Claim C6 — monotonicity of the stored timestamp

As stated, C6 fails on the code: a written cycle stores the fetched
document's top-level timestamp unconditionally
(`_last_reading_at = device_reading_at`, line 201), even when that value
is null (key absent) or earlier than the stored one.  What holds is:
the stored timestamp changes only on written cycles, and then becomes
exactly the document's top-level timestamp, whatever it is. -/

/-- Counterexample to C6 as stated: after a cycle stored a non-null
timestamp, a written cycle over a document lacking the top-level key
replaces it with null — a regression the claim forbids. -/
theorem claim_C6_counterexample :
    st1.last_reading_at = .str "2026-02-04T17:00:47Z"
      ∧ (poll_once payB "n3" storeOK st1).2.1 = .ok (.written 1)
      ∧ (poll_once payB "n3" storeOK st1).1.last_reading_at = .null :=
  ⟨rfl, rfl, rfl⟩

/-- Claim C6 amended: `last_seen_device_timestamp` is unchanged by every
cycle that does not write, and a cycle that writes replaces it with the
fetched document's top-level timestamp — which may be null or earlier
than the previous value; no ordering (or non-nullity) check is
performed. -/
theorem claim_C6_amended (data : JVal) (now : String)
    (store : List Line → Bool) (st st2 : CState)
    (res : Except PyErr PollResult) (calls : List (List Line))
    (h : poll_once data now store st = (st2, res, calls)) :
    (∀ n : ℕ, res = .ok (.written n) →
      ∃ dv, pyGetD data "last_reading_at" .null = .ok dv
        ∧ st2 = ⟨some now, st.polls_total + 1, dv⟩)
    ∧ ((∀ n : ℕ, res ≠ .ok (.written n)) → st2 = st) := by
  rcases poll_once_cases data now store st st2 res calls h with
    ⟨hst, hne⟩ | ⟨dv, n, hres, hg, hst⟩
  · exact ⟨fun n hn => absurd hn (hne n), fun _ => hst⟩
  · exact ⟨fun n2 _ => ⟨dv, hg, hst⟩, fun hne => absurd hres (hne n)⟩

/-- Witness for C6 amended, at a written cycle whose document lacks the
top-level timestamp. -/
theorem claim_C6_witness :
    ∃ dv, pyGetD payB "last_reading_at" .null = .ok dv
      ∧ (poll_once payB "n3" storeOK st1).1 = ⟨some "n3", st1.polls_total + 1, dv⟩ :=
  (claim_C6_amended payB "n3" storeOK st1 (poll_once payB "n3" storeOK st1).1
    (poll_once payB "n3" storeOK st1).2.1 (poll_once payB "n3" storeOK st1).2.2
    rfl).1 1 rfl

/-! ## Claim C3 — shape of normalizer output -/

/-- `finishEntry` succeeds with a reading only by building it from its
arguments, with a non-null timestamp. -/
theorem finishEntry_some (sid : JVal) (name : String) (value ts : JVal)
    (r : Reading) (h : finishEntry sid name value ts = .ok (some r)) :
    r.sensor_id = sid ∧ r.sensor_name = name ∧ r.timestamp = ts
      ∧ ts ≠ JVal.null := by
  unfold finishEntry at h
  split at h
  · simp at h
  · rename_i ts2 hne
    split at h
    · simp at h
    · rename_i v hv
      rw [Except.ok.injEq, Option.some.injEq] at h
      subst h
      exact ⟨rfl, rfl, rfl, fun hn => (hne hn : False)⟩

/-- Any reading emitted by the loop body carries a catalog-listed
sensor id, the catalog's name for it, and a non-null timestamp. -/
theorem entryStep_some (data s : JVal) (r : Reading)
    (h : entryStep data s = .ok (some r)) :
    sensorMapGet r.sensor_id = .ok (some r.sensor_name)
      ∧ r.timestamp ≠ JVal.null := by
  unfold entryStep at h
  split at h
  · simp at h
  · rename_i sid hsid
    split at h
    · simp at h
    · simp at h
    · rename_i name hname
      split at h
      · simp at h
      · simp at h
      · rename_i value hvnull hvalue
        split at h
        · simp at h
        · rename_i tsS htsS
          split at h
          · obtain ⟨h1, h2, h3, h4⟩ := finishEntry_some _ _ _ _ _ h
            rw [h1, h2, h3]
            exact ⟨hname, h4⟩
          · split at h
            · simp at h
            · obtain ⟨h1, h2, h3, h4⟩ := finishEntry_some _ _ _ _ _ h
              rw [h1, h2, h3]
              exact ⟨hname, h4⟩

/-- A successful `parseLoop` run equals an order-preserving `filterMap`
of the loop body over the raw entries: readings appear in input order,
with no sorting or reordering. -/
theorem parseLoop_ok_filterMap (data : JVal) :
    ∀ (ss : List JVal) (rs : List Reading), parseLoop data ss = .ok rs →
      rs = ss.filterMap (fun s => ((entryStep data s).toOption).join)
  | [], rs => by
    intro h
    simp [parseLoop] at h
    simp [← h]
  | s :: rest, rs => by
    intro h
    unfold parseLoop at h
    cases he : entryStep data s with
    | error e => rw [he] at h; simp at h
    | ok o =>
      rw [he] at h
      cases o with
      | none =>
        have ih := parseLoop_ok_filterMap data rest rs h
        simp [List.filterMap_cons, he, Except.toOption, Option.join, ih]
      | some r =>
        cases hrest : parseLoop data rest with
        | error e => rw [hrest] at h; simp at h
        | ok rs2 =>
          rw [hrest] at h
          have ih := parseLoop_ok_filterMap data rest rs2 hrest
          rw [Except.ok.injEq] at h
          subst h
          simp [List.filterMap_cons, he, Except.toOption, Option.join, ih]

/-- Claim C3: every reading in the normalizer's output has a
`sensor_id` that the static catalog lists, a (necessarily non-null,
rational-valued) `value`, a `sensor_name` equal to the catalog's mapping
for that id, and a resolved (non-null) timestamp; and the output is an
order-preserving `filterMap` of the input sensor entries — no
sorting. -/
theorem claim_C3 (data : JVal) (ss : List JVal) (rs : List Reading)
    (hs : getSensorsRaw data = .ok ss) (h : parse_sensors data = .ok rs) :
    rs = ss.filterMap (fun s => ((entryStep data s).toOption).join)
      ∧ ∀ r ∈ rs, sensorMapGet r.sensor_id = .ok (some r.sensor_name)
          ∧ r.timestamp ≠ JVal.null := by
  have hloop : parseLoop data ss = .ok rs := by
    unfold parse_sensors at h
    rw [hs] at h
    exact h
  have hfm := parseLoop_ok_filterMap data ss rs hloop
  refine ⟨hfm, fun r hr => ?_⟩
  rw [hfm] at hr
  obtain ⟨s, _, hfs⟩ := List.mem_filterMap.mp hr
  cases he : entryStep data s with
  | error e => rw [he] at hfs; simp [Except.toOption, Option.join] at hfs
  | ok o =>
    rw [he] at hfs
    cases o with
    | none => simp [Except.toOption, Option.join] at hfs
    | some r2 =>
      have : r2 = r := by simpa [Except.toOption, Option.join] using hfs
      subst this
      exact entryStep_some data s r2 he

/-- Witness for C3 on a concrete payload. -/
theorem claim_C3_witness :
    [r55] = [sensor55].filterMap (fun s => ((entryStep payA s).toOption).join)
      ∧ ∀ r ∈ [r55], sensorMapGet r.sensor_id = .ok (some r.sensor_name)
          ∧ r.timestamp ≠ JVal.null :=
  claim_C3 payA [sensor55] [r55] rfl rfl

/-! ## Claim C4 — non-numeric values

As stated, C4 fails on the code: `parse_sensors` applies `float(value)`
with no per-item exception handling (line 132), so a catalog-listed
entry whose present value does not parse raises `ValueError` out of the
normalizer, aborting the entire batch; the remaining readings are not
returned and the cycle fails into the backoff path. -/

/-- A catalog-listed entry with a resolvable (truthy own) timestamp and
a present non-float-parseable string value makes the loop body raise
`ValueError`. -/
theorem entryStep_badfloat (data s sid : JVal) (name : String) (v : String)
    (tsS : JVal)
    (h1 : pyGetD s "id" (.num (-1)) = .ok sid)
    (h2 : sensorMapGet sid = .ok (some name))
    (h3 : pyGetD s "value" .null = .ok (.str v))
    (h4 : parseFloatQ v = none)
    (h5 : pyGetD s "last_reading_at" .null = .ok tsS)
    (h6 : pyTruthy tsS = true) :
    entryStep data s = .error .valueError := by
  unfold entryStep
  simp only [h1, h2, h3, h5]
  simp only [h6, if_true]
  cases tsS with
  | null => simp [pyTruthy] at h6
  | bool b => simp [finishEntry, pyFloat, h4]
  | num q => simp [finishEntry, pyFloat, h4]
  | str s2 => simp [finishEntry, pyFloat, h4]
  | arr xs => simp [finishEntry, pyFloat, h4]
  | obj fs => simp [finishEntry, pyFloat, h4]

/-- If every entry before `s` is handled without raising and `s` makes
the loop body raise `e`, the whole loop raises `e`. -/
theorem parseLoop_append_error (data : JVal) (s : JVal) (l2 : List JVal)
    (e : PyErr) :
    ∀ l1 : List JVal, (∀ s1 ∈ l1, ∃ o, entryStep data s1 = .ok o) →
      entryStep data s = .error e →
      parseLoop data (l1 ++ s :: l2) = .error e
  | [], _, hs => by
    unfold parseLoop
    rw [List.nil_append]
    simp only [hs]
  | a :: l1, hok, hs => by
    obtain ⟨o, ho⟩ := hok a (List.mem_cons_self a l1)
    have ih := parseLoop_append_error data s l2 e l1
      (fun s1 h1 => hok s1 (List.mem_cons_of_mem _ h1)) hs
    rw [List.cons_append]
    unfold parseLoop
    rw [ho]
    cases o with
    | none => exact ih
    | some r => rw [ih]

/-- Claim C4 amended: for every payload containing a catalog-listed
sensor entry with a resolvable timestamp whose value is present but
does not parse as a floating-point number, normalization raises
`ValueError` out of the normalizer (aborting the whole batch and the
cycle) as soon as the scan reaches that entry — the remaining readings
are not returned. -/
theorem claim_C4_amended (data : JVal) (ss l1 l2 : List JVal)
    (s sid tsS : JVal) (name v : String)
    (hss : getSensorsRaw data = .ok ss)
    (hsplit : ss = l1 ++ s :: l2)
    (hpre : ∀ s1 ∈ l1, ∃ o, entryStep data s1 = .ok o)
    (h1 : pyGetD s "id" (.num (-1)) = .ok sid)
    (h2 : sensorMapGet sid = .ok (some name))
    (h3 : pyGetD s "value" .null = .ok (.str v))
    (h4 : parseFloatQ v = none)
    (h5 : pyGetD s "last_reading_at" .null = .ok tsS)
    (h6 : pyTruthy tsS = true) :
    parse_sensors data = .error .valueError := by
  unfold parse_sensors
  rw [hss]
  rw [hsplit]
  exact parseLoop_append_error data s l2 .valueError l1 hpre
    (entryStep_badfloat data s sid name v tsS h1 h2 h3 h4 h5 h6)

/-- Counterexample to C4 as stated: `payBad` holds the non-numeric
entry followed by a perfectly good one; normalization raises instead of
returning the good reading (which parses fine once the offending entry
is removed). -/
theorem claim_C4_counterexample :
    parse_sensors payBad = .error .valueError
      ∧ parse_sensors payBadRemoved = .ok [r56] :=
  ⟨rfl, rfl⟩

/-- Witness for C4 amended at the concrete payload. -/
theorem claim_C4_witness : parse_sensors payBad = .error .valueError :=
  claim_C4_amended payBad [sensorBad, sensor56] [] [sensor56] sensorBad
    (.num 55) (.str "2026-02-04T17:00:47Z") "temperature" "n/a"
    rfl rfl (fun s1 h1 => absurd h1 (List.not_mem_nil s1))
    rfl rfl rfl rfl rfl rfl

/-! ## Claim C8 — totality of normalization

As stated, C8 fails on the code: `parse_sensors` only defaults *absent*
keys; a present key of the wrong shape raises (e.g. a numeric `"data"`
member makes the chained `.get` raise `AttributeError`), and a present
non-coercible value raises `ValueError` (claim C4).  Totality holds on
structurally well-shaped payloads. -/

/-- A hashable id never makes the catalog lookup raise. -/
theorem sensorMapGet_hashable (sid : JVal) (h : hashable sid = true) :
    ∃ r, sensorMapGet sid = .ok r := by
  cases sid with
  | null => exact ⟨_, rfl⟩
  | bool b => exact ⟨_, rfl⟩
  | num q => exact ⟨_, rfl⟩
  | str s2 => exact ⟨_, rfl⟩
  | arr xs => simp [hashable] at h
  | obj fs => simp [hashable] at h

/-- A floatable non-null value never makes `float` raise. -/
theorem pyFloat_floatable (val : JVal) (hf : floatable val = true)
    (hnn : val ≠ JVal.null) : ∃ q, pyFloat val = .ok q := by
  cases val with
  | null => exact absurd rfl hnn
  | bool b => exact ⟨_, rfl⟩
  | num q => exact ⟨q, rfl⟩
  | str s2 =>
    simp only [floatable] at hf
    obtain ⟨q, hq⟩ := Option.isSome_iff_exists.mp hf
    exact ⟨q, by simp [pyFloat, hq]⟩
  | arr xs => simp [floatable] at hf
  | obj fs => simp [floatable] at hf

/-- `finishEntry` never raises on a floatable non-null value. -/
theorem finishEntry_floatable (sid : JVal) (name : String) (val ts : JVal)
    (hf : floatable val = true) (hnn : val ≠ JVal.null) :
    ∃ o, finishEntry sid name val ts = .ok o := by
  by_cases hts : ts = JVal.null
  · subst hts
    exact ⟨none, rfl⟩
  · obtain ⟨q, hq⟩ := pyFloat_floatable val hf hnn
    refine ⟨some ⟨sid, name, q, ts⟩, ?_⟩
    unfold finishEntry
    cases ts <;> first
      | exact absurd rfl hts
      | simp [hq]

/-- A well-shaped entry never makes the loop body raise. -/
theorem entryStep_wellShaped (fs : List (String × JVal)) (s : JVal)
    (hw : wellShapedEntry s = true) :
    ∃ o, entryStep (.obj fs) s = .ok o := by
  cases s with
  | null => simp [wellShapedEntry] at hw
  | bool b => simp [wellShapedEntry] at hw
  | num q => simp [wellShapedEntry] at hw
  | str s2 => simp [wellShapedEntry] at hw
  | arr xs => simp [wellShapedEntry] at hw
  | obj gs =>
    simp only [wellShapedEntry, Bool.and_eq_true] at hw
    obtain ⟨hhash, hfloat⟩ := hw
    unfold entryStep
    simp only [pyGetD]
    obtain ⟨ro, hro⟩ := sensorMapGet_hashable _ hhash
    rw [hro]
    cases ro with
    | none => exact ⟨none, rfl⟩
    | some name =>
      cases hval : (gs.lookup "value").getD JVal.null with
      | null => exact ⟨none, rfl⟩
      | bool b =>
        rw [hval] at hfloat
        dsimp only
        by_cases htr : pyTruthy ((gs.lookup "last_reading_at").getD JVal.null) = true
        · rw [if_pos htr]; exact finishEntry_floatable _ _ _ _ hfloat (by simp)
        · rw [if_neg htr]; exact finishEntry_floatable _ _ _ _ hfloat (by simp)
      | num q =>
        rw [hval] at hfloat
        dsimp only
        by_cases htr : pyTruthy ((gs.lookup "last_reading_at").getD JVal.null) = true
        · rw [if_pos htr]; exact finishEntry_floatable _ _ _ _ hfloat (by simp)
        · rw [if_neg htr]; exact finishEntry_floatable _ _ _ _ hfloat (by simp)
      | str s3 =>
        rw [hval] at hfloat
        dsimp only
        by_cases htr : pyTruthy ((gs.lookup "last_reading_at").getD JVal.null) = true
        · rw [if_pos htr]; exact finishEntry_floatable _ _ _ _ hfloat (by simp)
        · rw [if_neg htr]; exact finishEntry_floatable _ _ _ _ hfloat (by simp)
      | arr xs => rw [hval] at hfloat; simp [floatable] at hfloat
      | obj hs => rw [hval] at hfloat; simp [floatable] at hfloat

/-- The loop never raises over well-shaped entries. -/
theorem parseLoop_wellShaped (fs : List (String × JVal)) :
    ∀ ss : List JVal, (∀ s ∈ ss, wellShapedEntry s = true) →
      ∃ rs, parseLoop (.obj fs) ss = .ok rs
  | [], _ => ⟨[], rfl⟩
  | s :: rest, hall => by
    obtain ⟨o, ho⟩ := entryStep_wellShaped fs s (hall s (List.mem_cons_self s rest))
    obtain ⟨rs, hrs⟩ := parseLoop_wellShaped fs rest
      (fun s1 h1 => hall s1 (List.mem_cons_of_mem _ h1))
    cases o with
    | none => exact ⟨rs, by unfold parseLoop; rw [ho]; exact hrs⟩
    | some r => exact ⟨r :: rs, by unfold parseLoop; rw [ho, hrs]⟩

/-- Claim C8 amended: normalization is total — returning a possibly
empty list, never raising — on every payload whose structure is
well-typed where present (the members at the looked-up path, when
present, have the expected kinds; entry ids are hashable; present
values are float-coercible).  Missing keys only produce fewer results.
On other payloads it can raise (see the counterexample). -/
theorem claim_C8_amended (data : JVal) (hw : wellShaped data = true) :
    ∃ rs, parse_sensors data = .ok rs := by
  cases data with
  | null => simp [wellShaped] at hw
  | bool b => simp [wellShaped] at hw
  | num q => simp [wellShaped] at hw
  | str s2 => simp [wellShaped] at hw
  | arr xs => simp [wellShaped] at hw
  | obj fs =>
    unfold wellShaped at hw
    dsimp only at hw
    cases hd : (fs.lookup "data").getD (JVal.obj []) with
    | obj gs =>
      rw [hd] at hw
      dsimp only at hw
      cases hsens : (gs.lookup "sensors").getD (JVal.arr []) with
      | arr ss =>
        rw [hsens] at hw
        dsimp only at hw
        have hall := List.all_eq_true.mp hw
        obtain ⟨rs, hrs⟩ := parseLoop_wellShaped fs ss
          (fun s1 h1 => hall s1 h1)
        refine ⟨rs, ?_⟩
        unfold parse_sensors getSensorsRaw
        simp only [pyGetD, hd, hsens, pyIter]
        exact hrs
      | null => rw [hsens] at hw; simp at hw
      | bool b => rw [hsens] at hw; simp at hw
      | num q => rw [hsens] at hw; simp at hw
      | str s2 => rw [hsens] at hw; simp at hw
      | obj hs => rw [hsens] at hw; simp at hw
    | null => rw [hd] at hw; simp at hw
    | bool b => rw [hd] at hw; simp at hw
    | num q => rw [hd] at hw; simp at hw
    | str s2 => rw [hd] at hw; simp at hw
    | arr xs => rw [hd] at hw; simp at hw

/-- Counterexample to C8 as stated: a payload whose `"data"` member is
present but numeric makes normalization raise `AttributeError` instead
of returning a list. -/
theorem claim_C8_counterexample :
    parse_sensors payMalformed = .error .attributeError := rfl

/-- Witness for C8 amended: the empty document is well-shaped and
normalizes to the empty list; a fully-populated payload is also
covered. -/
theorem claim_C8_witness :
    (wellShaped (.obj []) = true ∧ ∃ rs, parse_sensors (.obj []) = .ok rs)
      ∧ (wellShaped payA = true ∧ ∃ rs, parse_sensors payA = .ok rs) :=
  ⟨⟨rfl, claim_C8_amended (.obj []) rfl⟩, ⟨rfl, claim_C8_amended payA rfl⟩⟩

/-! ## Claim C5 — timestamp conversion

As stated, C5 fails on the code: `int(dt.timestamp() * 1e9)` rounds the
product to the nearest double, and for epoch magnitudes beyond
`2^53 / 5^9` nanoseconds-per-second (≈ year 2116) the product is no
longer representable, so the result differs from
`epoch_seconds * 1_000_000_000` and consecutive-minute differences
deviate from 60 · 10⁹ (concretely at year 9999).  The `Z` ≡ `+00:00`
equivalence always holds, and exactness plus the 60-second shift hold
for all epochs below that bound, which covers every timestamp the
upstream can emit for the next ninety years. -/

/-- `replaceZ` distributes over append. -/
theorem replaceZ_append (cs ds : List Char) :
    replaceZ (cs ++ ds) = replaceZ cs ++ replaceZ ds := by
  unfold replaceZ
  exact List.flatMap_append cs ds _

/-- `replaceZ` leaves `Z`-free strings unchanged. -/
theorem replaceZ_noZ : ∀ cs : List Char, 'Z' ∉ cs → replaceZ cs = cs
  | [], _ => rfl
  | c :: cs, h => by
    have hc : c ≠ 'Z' := fun hc => h (hc ▸ List.mem_cons_self c cs)
    have ih := replaceZ_noZ cs (fun hm => h (List.mem_cons_of_mem c hm))
    unfold replaceZ at ih ⊢
    simp only [List.flatMap_cons, hc, if_neg, ih]
    simp [hc]

/-- `log2f` with any fuel stays below the binary logarithm bound. -/
theorem log2f_le : ∀ (fuel n k : ℕ), n < 2 ^ (k + 1) → log2f fuel n ≤ k
  | 0, _, _, _ => by simp [log2f]
  | fuel + 1, n, k, h => by
    unfold log2f
    by_cases h1 : n ≤ 1
    · simp [h1]
    · rw [if_neg h1]
      cases k with
      | zero =>
        exfalso
        have : n < 2 := h
        omega
      | succ k2 =>
        have hdiv : n / 2 < 2 ^ (k2 + 1) := by
          rw [Nat.div_lt_iff_lt_mul (by norm_num)]
          calc n < 2 ^ (k2 + 2) := h
            _ = 2 ^ (k2 + 1) * 2 := by ring
        have := log2f_le fuel (n / 2) k2 hdiv
        omega

/-- Integers of the form `2⁹ · k` with `|k| < 2⁵³` are exactly
representable as doubles: rounding is the identity. -/
theorem roundD53_exact (k : ℤ) (hk : k.natAbs < 2 ^ 53) :
    roundD53 (2 ^ 9 * k) = 2 ^ 9 * k := by
  unfold roundD53
  by_cases hs : (2 ^ 9 * k).natAbs < 2 ^ 53
  · dsimp only
    rw [if_pos hs]
  · dsimp only
    rw [if_neg hs]
    have habs : (2 ^ 9 * k).natAbs = 2 ^ 9 * k.natAbs := by
      rw [Int.natAbs_mul]
      norm_num
    have hlt : (2 ^ 9 * k).natAbs < 2 ^ 62 := by
      rw [habs]
      calc 2 ^ 9 * k.natAbs < 2 ^ 9 * 2 ^ 53 :=
            mul_lt_mul_of_pos_left hk (by norm_num)
        _ = 2 ^ 62 := by norm_num
    set L := log2f (2 ^ 9 * k).natAbs (2 ^ 9 * k).natAbs with hL
    have he : L ≤ 61 := by
      rw [hL]
      exact log2f_le _ _ 61 (by exact hlt)
    have he2 : L - 52 ≤ 9 := by omega
    have hdvd : 2 ^ (L - 52) ∣ (2 ^ 9 * k).natAbs := by
      rw [habs]
      exact Dvd.dvd.mul_right (pow_dvd_pow 2 he2) _
    have hr : (2 ^ 9 * k).natAbs % 2 ^ (L - 52) = 0 :=
      Nat.mod_eq_zero_of_dvd hdvd
    rw [hr]
    have hpos : 0 < 2 ^ (L - 52) := pow_pos (by norm_num) _
    rw [if_pos (by omega : 0 * 2 < 2 ^ (L - 52))]
    have h2 : ((2 : ℤ)) ^ (L - 52) = ((2 ^ (L - 52) : ℕ) : ℤ) := by push_cast; ring
    rw [h2, ← Nat.cast_mul, Nat.div_mul_cancel hdvd, Int.sign_mul_natAbs]

/-- Claim C5 amended: (1) a trailing `Z` designator is equivalent to
`+00:00` for every `Z`-free prefix; (2) for whole-second offset-aware
timestamps whose epoch-second magnitude is at most 4611686018 (i.e.
through early year 2116, beyond which `epoch_seconds * 10⁹` stops being
representable as a double) the result is exactly
`epoch_seconds * 1_000_000_000` — in particular it equals
`floor(epoch_seconds * 1e9)`; (3) under the same bound, a 60-second
shift changes the result by exactly 60_000_000_000.  Outside the bound
IEEE-754 rounding perturbs the result (see the counterexample). -/
theorem claim_C5_amended :
    (∀ cs : List Char, 'Z' ∉ cs →
      _iso_to_ns (cs ++ ['Z']) = _iso_to_ns (cs ++ ['+', '0', '0', ':', '0', '0']))
    ∧ (∀ (cs : List Char) (dt : AwareDT),
        fromisoformat (replaceZ cs) = some dt →
        (epochSecs dt).natAbs ≤ 4611686018 →
        _iso_to_ns cs = .ok (epochSecs dt * 1000000000))
    ∧ (∀ (cs cs2 : List Char) (dt dt2 : AwareDT),
        fromisoformat (replaceZ cs) = some dt →
        fromisoformat (replaceZ cs2) = some dt2 →
        epochSecs dt2 = epochSecs dt + 60 →
        (epochSecs dt).natAbs ≤ 4611686018 →
        (epochSecs dt2).natAbs ≤ 4611686018 →
        ∃ a : ℤ, _iso_to_ns cs = .ok a
          ∧ _iso_to_ns cs2 = .ok (a + 60000000000)) := by
  have exact60 : ∀ (cs : List Char) (dt : AwareDT),
      fromisoformat (replaceZ cs) = some dt →
      (epochSecs dt).natAbs ≤ 4611686018 →
      _iso_to_ns cs = .ok (epochSecs dt * 1000000000) := by
    intro cs dt hp hb
    unfold _iso_to_ns
    rw [hp]
    dsimp only
    have hsplit : epochSecs dt * 1000000000 = 2 ^ 9 * (epochSecs dt * 1953125) := by
      ring
    rw [hsplit, roundD53_exact]
    rw [Int.natAbs_mul]
    calc (epochSecs dt).natAbs * (1953125 : ℤ).natAbs
        ≤ 4611686018 * (1953125 : ℤ).natAbs :=
          Nat.mul_le_mul_right _ hb
      _ < 2 ^ 53 := by norm_num
  refine ⟨?_, exact60, ?_⟩
  · intro cs hz
    unfold _iso_to_ns
    rw [replaceZ_append, replaceZ_append, replaceZ_noZ cs hz]
    have e1 : replaceZ ['Z'] = ['+', '0', '0', ':', '0', '0'] := by decide
    have e2 : replaceZ ['+', '0', '0', ':', '0', '0'] = ['+', '0', '0', ':', '0', '0'] := by
      decide
    rw [e1, e2]
  · intro cs cs2 dt dt2 hp hp2 hshift hb hb2
    refine ⟨epochSecs dt * 1000000000, exact60 cs dt hp hb, ?_⟩
    rw [exact60 cs2 dt2 hp2 hb2, hshift]
    congr 1
    ring

/-- Counterexample to C5 as stated: at `9999-01-01T00:00:01+00:00`
(epoch 253370764801 s, a valid whole-second ISO-8601 timestamp) the
code returns 253370764801000013824 ≠ 253370764801·10⁹, and the
60-second shift to `9999-01-01T00:01:01+00:00` changes the result by
59999977472 ≠ 60_000_000_000 nanoseconds. -/
theorem claim_C5_counterexample :
    fromisoformat (replaceZ "9999-01-01T00:00:01+00:00".data) = some dt9
      ∧ epochSecs dt9 = 253370764801
      ∧ _iso_to_ns "9999-01-01T00:00:01+00:00".data = .ok 253370764801000013824
      ∧ (253370764801000013824 : ℤ) ≠ 253370764801 * 1000000000
      ∧ _iso_to_ns "9999-01-01T00:01:01+00:00".data = .ok 253370764860999991296
      ∧ (253370764860999991296 : ℤ) - 253370764801000013824 ≠ 60000000000 :=
  ⟨rfl, by decide, rfl, by decide, rfl, by decide⟩

/-- Witness for C5 amended at the upstream's actual timestamp era. -/
theorem claim_C5_witness :
    ('Z' ∉ "2026-02-04T17:00:47".data
      ∧ _iso_to_ns ("2026-02-04T17:00:47".data ++ ['Z'])
          = _iso_to_ns ("2026-02-04T17:00:47".data ++ ['+', '0', '0', ':', '0', '0']))
    ∧ _iso_to_ns "2026-02-04T17:00:47Z".data
        = .ok (epochSecs ⟨2026, 2, 4, 17, 0, 47, 0⟩ * 1000000000)
    ∧ (∃ a : ℤ, _iso_to_ns "2026-02-04T17:00:47Z".data = .ok a
        ∧ _iso_to_ns "2026-02-04T17:01:47Z".data = .ok (a + 60000000000)) := by
  refine ⟨⟨by decide, claim_C5_amended.1 _ (by decide)⟩, ?_, ?_⟩
  · exact claim_C5_amended.2.1 _ ⟨2026, 2, 4, 17, 0, 47, 0⟩ rfl (by decide)
  · exact claim_C5_amended.2.2 _ _ ⟨2026, 2, 4, 17, 0, 47, 0⟩ ⟨2026, 2, 4, 17, 1, 47, 0⟩
      rfl rfl (by decide) (by decide) (by decide)
